import Mathlib

/-!
A shallow embedding of the realtime synchronization layer of the
pair-trading tool: the `realtimeReducer` / `handleWebSocketMessage` /
command actions of the RealtimeContext module, and the connection
lifecycle of the `useWebSocket` hook.

JavaScript objects are modelled as association lists from string keys to
a small inductive type of JavaScript values; spread-merge is a
left-to-right fold of single-key updates, matching the override
semantics of `{...a, ...b}`.
-/

namespace PairTrading

/-- A JavaScript value, as far as the realtime layer manipulates them.
`date src` models `new Date(src)`: a structured time value remembering
the value it was parsed from. -/
inductive JsValue where
  | undef : JsValue
  | null : JsValue
  | bool : Bool → JsValue
  | num : Int → JsValue
  | str : String → JsValue
  | date : JsValue → JsValue
  deriving Repr, DecidableEq

/-- A JavaScript object: an association list of fields. -/
abbrev JsObj : Type := List (String × JsValue)

/-- Lookup in a string-keyed map (first matching key). -/
def mapGet {α : Type} : List (String × α) → String → Option α
  | [], _ => none
  | (k', v) :: rest, k => if k' = k then some v else mapGet rest k

/-- Update a string-keyed map: replace the first binding of the key, or
append a fresh binding. Models assignment of a property on an object. -/
def mapSet {α : Type} : List (String × α) → String → α → List (String × α)
  | [], k, v => [(k, v)]
  | (k', v') :: rest, k, v =>
      if k' = k then (k, v) :: rest else (k', v') :: mapSet rest k v

/-- Lookup with a default. -/
def mapGetD {α : Type} (m : List (String × α)) (k : String) (d : α) : α :=
  (mapGet m k).getD d

/-- Reading a property of an object: a missing field reads as `undefined`. -/
def getField (o : JsObj) (k : String) : JsValue :=
  mapGetD o k JsValue.undef

/-- Whether an object has a binding for a field. -/
def hasField (o : JsObj) (k : String) : Bool :=
  (mapGet o k).isSome

/-- Object spread: `mergeObj a b` models the object literal `{...a, ...b}`: every field
of `b` is written over `a`, left to right, so on a key collision the
field from `b` wins. -/
def mergeObj (a b : JsObj) : JsObj :=
  b.foldl (fun acc kv => mapSet acc kv.1 kv.2) a

/-- JavaScript property-key coercion (`ToPropertyKey`): the computed key
`[action.payload.pair_id]` turns a missing field (`undefined`) into the
string key `"undefined"`. Dates never occur as keys in this program. -/
def toKey : JsValue → String
  | .undef => "undefined"
  | .null => "null"
  | .bool true => "true"
  | .bool false => "false"
  | .num n => toString n
  | .str s => s
  | .date v => "[Date " ++ toKey v ++ "]"

/-- The combined realtime state held by the reducer:
`{ pairs: {}, alerts: [], prices: {}, systemStatus: {...} }`. -/
structure RealtimeState where
  pairs : List (String × JsObj)
  alerts : List JsObj
  prices : List (String × JsObj)
  systemStatus : JsObj
  deriving Repr, DecidableEq

/-- The `initialState` from the source: empty maps, empty alert list,
`systemStatus = { monitoring: false, connections: 0 }`. -/
def initialState : RealtimeState :=
  { pairs := []
    alerts := []
    prices := []
    systemStatus := [("monitoring", JsValue.bool false), ("connections", JsValue.num 0)] }

/-- The action vocabulary of `realtimeReducer` (the `ActionTypes` table),
each carrying its `payload`. -/
inductive Action where
  | updatePair (payload : JsObj)
  | addAlert (payload : JsObj)
  | updatePrice (payload : JsObj)
  | updateSystemStatus (payload : JsObj)
  | clearAlerts
  deriving Repr, DecidableEq

/-- The reducer `realtimeReducer` from the source, arm by arm:
UPDATE_PAIR merges the payload into `pairs[payload.pair_id]`
(spreading a missing entry gives `{}`), ADD_ALERT prepends the payload
to `alerts.slice(0, 49)`, UPDATE_PRICE overwrites `prices[payload.symbol]`,
UPDATE_SYSTEM_STATUS shallow-merges into `systemStatus`, CLEAR_ALERTS
empties `alerts`, and the default arm returns the state unchanged. -/
def realtimeReducer (state : RealtimeState) (action : Action) : RealtimeState :=
  match action with
  | .updatePair payload =>
      let pid := toKey (getField payload "pair_id")
      { state with
          pairs := mapSet state.pairs pid (mergeObj (mapGetD state.pairs pid []) payload) }
  | .addAlert payload =>
      { state with alerts := payload :: state.alerts.take 49 }
  | .updatePrice payload =>
      let sym := toKey (getField payload "symbol")
      { state with prices := mapSet state.prices sym payload }
  | .updateSystemStatus payload =>
      { state with systemStatus := mergeObj state.systemStatus payload }
  | .clearAlerts =>
      { state with alerts := [] }

/-- An inbound envelope: `{ type, data }`. -/
structure Envelope where
  type : String
  data : JsObj
  deriving Repr, DecidableEq

/-- The AlertRecord constructed by the `alert` arm:
`{...message.data, id: Date.now(), timestamp: new Date(message.data.timestamp)}`. -/
def alertRecord (now : Int) (data : JsObj) : JsObj :=
  mergeObj data
    [("id", JsValue.num now),
     ("timestamp", JsValue.date (getField data "timestamp"))]

/-- The dispatcher `handleWebSocketMessage` from the source. `now` is the value
`Date.now()` returns during this invocation. The `alert` arm builds
`{...message.data, id: Date.now(), timestamp: new Date(message.data.timestamp)}`
and dispatches ADD_ALERT (the browser-notification emission in that arm
is an external side effect and never touches the state); `pong` is
consumed without a dispatch, and the default arm only logs. -/
def handleWebSocketMessage (now : Int) (state : RealtimeState) (message : Envelope) :
    RealtimeState :=
  match message.type with
  | "pair_update" => realtimeReducer state (Action.updatePair message.data)
  | "alert" => realtimeReducer state (Action.addAlert (alertRecord now message.data))
  | "price_update" => realtimeReducer state (Action.updatePrice message.data)
  | "system_status" => realtimeReducer state (Action.updateSystemStatus message.data)
  | "pong" => state
  | _ => state

/-- Processing a stream of inbound envelopes in arrival order (the
`useEffect` feeding each `lastMessage` to `handleWebSocketMessage`). -/
def processStream (now : Int) (state : RealtimeState) (messages : List Envelope) :
    RealtimeState :=
  messages.foldl (handleWebSocketMessage now) state

/-- Processing a sequence of ADD_ALERT dispatches in order. -/
def processAlerts (state : RealtimeState) (payloads : List JsObj) : RealtimeState :=
  payloads.foldl (fun st p => realtimeReducer st (Action.addAlert p)) state

/-- A concrete run in which two alert envelopes are received during the
same wall-clock millisecond, so both `Date.now()` calls return
1727346615000. -/
def sameMillisecondRun : RealtimeState :=
  handleWebSocketMessage 1727346615000
    (handleWebSocketMessage 1727346615000 initialState
      ⟨"alert", [("type", JsValue.str "z_score"), ("message", JsValue.str "first"),
                 ("timestamp", JsValue.str "2024-09-26T10:30:15Z")]⟩)
    ⟨"alert", [("type", JsValue.str "z_score"), ("message", JsValue.str "second"),
               ("timestamp", JsValue.str "2024-09-26T10:30:15Z")]⟩

/-- The readyState of the underlying WebSocket (`opened` is
`WebSocket.OPEN`; `open` is a reserved word in Lean). -/
inductive ReadyState where
  | connecting
  | opened
  | closing
  | closed
  deriving Repr, DecidableEq

/-- A WebSocket handle: its current readyState and the ordered list of
frames transmitted through it (`ws.send(JSON.stringify(m))` is modelled
by appending the structured message; serialization is injective on the
values in play, so the object stands for its wire form). -/
structure Socket where
  readyState : ReadyState
  sent : List JsObj
  deriving Repr, DecidableEq

/-- The state the `useWebSocket` hook closes over: the `socket` React
state cell, the `isConnected` and `connectionError` cells, the
`reconnectAttemptsRef` counter, the pending reconnect timer (holding the
scheduled delay in milliseconds), and two bookkeeping fields that track
the transports the hook has constructed: `nextId` numbers each
`new WebSocket(url)` call and `liveTransports` counts the transports
created and not yet closed. -/
structure WsClient where
  socket : Option Nat
  isConnected : Bool
  connectionError : Option String
  reconnectAttempts : Nat
  pendingReconnect : Option Nat
  nextId : Nat
  liveTransports : Nat
  deriving Repr, DecidableEq

/-- The cap `maxReconnectAttempts = 5` from the source. -/
def maxReconnectAttempts : Nat := 5

/-- The hook's state when the component mounts, before the initial
`connect()` of its `useEffect`. -/
def initClient : WsClient :=
  { socket := none
    isConnected := false
    connectionError := none
    reconnectAttempts := 0
    pendingReconnect := none
    nextId := 0
    liveTransports := 0 }

/-- The `connect()` callback from the source. The body has no guard on the current
state: it always evaluates `new WebSocket(url)` (a fresh transport) and
then `setSocket(ws)`, replacing the socket reference without closing the
previous transport. The handlers installed on the new socket are
modelled by `wsOnOpen` / `wsOnClose` / `wsOnMessage` below. (The
`catch` arm only fires when constructing the WebSocket itself throws,
which the fixed well-formed URL never does, so it is not modelled.) -/
def connect (c : WsClient) : WsClient :=
  { c with
      socket := some c.nextId
      nextId := c.nextId + 1
      liveTransports := c.liveTransports + 1 }

/-- Handler `ws.onopen` from the source: marks the connection open, clears the
error, and resets the reconnect-attempt counter to 0. (The 30-second
ping interval it starts is a timer side effect with no hook state.) -/
def wsOnOpen (c : WsClient) : WsClient :=
  { c with
      isConnected := true
      connectionError := none
      reconnectAttempts := 0 }

/-- Handler `ws.onclose` from the source: clears `isConnected` and `socket`;
then, when the close code is not the normal closure 1000 and the
attempt counter is below `maxReconnectAttempts`, schedules a reconnect
after `2 ^ reconnectAttempts * 1000` milliseconds. -/
def wsOnClose (c : WsClient) (code : Nat) : WsClient :=
  let c := { c with isConnected := false, socket := none }
  if code ≠ 1000 ∧ c.reconnectAttempts < maxReconnectAttempts then
    { c with pendingReconnect := some (2 ^ c.reconnectAttempts * 1000) }
  else c

/-- The body of the scheduled `setTimeout` callback: when a reconnect is
pending, increments the attempt counter and calls `connect()` again;
with no pending timer nothing fires. -/
def wsTimerFire (c : WsClient) : WsClient :=
  match c.pendingReconnect with
  | some _ =>
      connect { c with
                  pendingReconnect := none
                  reconnectAttempts := c.reconnectAttempts + 1 }
  | none => c

/-- A run of consecutive abnormal closures (close code 1006): each
closure fires `ws.onclose`; if that scheduled a reconnect, the delay is
recorded, the timer fires (incrementing the counter and reconnecting),
and the fresh connection closes abnormally again. Returns the final
client state paired with the scheduled delays in order. -/
def abnormalRun (c : WsClient) : Nat → WsClient × List Nat
  | 0 => (c, [])
  | n + 1 =>
      let c' := wsOnClose c 1006
      match c'.pendingReconnect with
      | some d =>
          let r := abnormalRun (wsTimerFire c') n
          (r.1, d :: r.2)
      | none => (c', [])

/-- The `sendMessage(message)` callback from the source: transmits the serialized
message only when a socket exists and its readyState is OPEN, returning
`true`; otherwise it only warns and returns `false`. Never throws. -/
def sendMessage (socket : Option Socket) (message : JsObj) :
    Option Socket × Bool :=
  match socket with
  | some s =>
      if s.readyState = ReadyState.opened then
        (some { s with sent := s.sent ++ [message] }, true)
      else
        (some s, false)
  | none => (none, false)

/-- The browser Notification permission states. -/
inductive Permission where
  | permDefault
  | granted
  | denied
  deriving Repr, DecidableEq

/-- The host Notification capability, when present: its current
`Notification.permission` and the permission the user settles on when
`Notification.requestPermission()` is awaited. -/
structure NotificationApi where
  permission : Permission
  requestResult : Permission
  deriving Repr, DecidableEq

/-- A runtime error escaping the modelled code (an async function that
hits one rejects its promise with it instead of resolving). -/
inductive JsError where
  | referenceError (name : String)
  deriving Repr, DecidableEq

/-- The action `requestNotificationPermission` from the source, evaluated
against a host where the Notification capability may be absent
(`env = none` models `'Notification' in window` being false). When the
guard `'Notification' in window && Notification.permission === 'default'`
fails, control reaches `return Notification.permission === 'granted'`,
which on a host without the capability dereferences the unbound global
`Notification` and raises a ReferenceError. -/
def requestNotificationPermission (env : Option NotificationApi) :
    Except JsError Bool :=
  match env with
  | some api =>
      if api.permission = Permission.permDefault then
        Except.ok (api.requestResult = Permission.granted)
      else
        Except.ok (api.permission = Permission.granted)
  | none => Except.error (JsError.referenceError "Notification")

/-- The command vocabulary of the `actions` object. -/
inductive Command where
  | startMonitoring
  | stopMonitoring
  | subscribeToPair (pairId : JsValue)
  | clearAlertsCmd
  deriving Repr, DecidableEq

/-- The `actions` object from the source: each command arm either
composes one outbound envelope through `sendMessage` or dispatches one
local action to `realtimeReducer`; the result is the new realtime state
together with the (possibly written-to) socket. -/
def runCommand (cmd : Command) (state : RealtimeState) (socket : Option Socket) :
    RealtimeState × Option Socket :=
  match cmd with
  | .startMonitoring =>
      (state, (sendMessage socket [("type", JsValue.str "start_monitoring")]).1)
  | .stopMonitoring =>
      (state, (sendMessage socket [("type", JsValue.str "stop_monitoring")]).1)
  | .subscribeToPair pairId =>
      (state,
       (sendMessage socket
         [("type", JsValue.str "subscribe_pair"), ("pair_id", pairId)]).1)
  | .clearAlertsCmd =>
      (realtimeReducer state Action.clearAlerts, socket)

/-! ## Helper lemmas -/

lemma take_append_take {α : Type} (ys : List α) :
    ∀ (xs : List α) (m n : Nat), m ≤ n →
      (xs ++ ys.take n).take m = (xs ++ ys).take m := by
  intro xs
  induction xs with
  | nil =>
      intro m n h
      simp only [List.nil_append, List.take_take]
      congr 1
      omega
  | cons x xs ih =>
      intro m n h
      match m with
      | 0 => simp
      | m + 1 =>
          simp only [List.cons_append, List.take_succ_cons]
          rw [ih m n (by omega)]

lemma mapGet_mapSet_self {α : Type} :
    ∀ (m : List (String × α)) (k : String) (v : α),
      mapGet (mapSet m k v) k = some v := by
  intro m
  induction m with
  | nil => intro k v; simp [mapGet, mapSet]
  | cons kv rest ih =>
      intro k v
      by_cases h : kv.1 = k
      · simp [mapGet, mapSet, h]
      · simp [mapGet, mapSet, h, ih]

lemma mapGet_mapSet_ne {α : Type} :
    ∀ (m : List (String × α)) (k k' : String) (v : α), k' ≠ k →
      mapGet (mapSet m k v) k' = mapGet m k' := by
  intro m
  induction m with
  | nil => intro k k' v h; simp [mapGet, mapSet, Ne.symm h]
  | cons kv rest ih =>
      intro k k' v h
      by_cases hk : kv.1 = k
      · simp [mapGet, mapSet, hk, Ne.symm h]
      · simp [mapGet, mapSet, hk, ih _ _ _ h]

/-- One ADD_ALERT step rewrites the alert list to
`payload :: alerts.take 49`. -/
lemma addAlert_alerts (s : RealtimeState) (p : JsObj) :
    (realtimeReducer s (Action.addAlert p)).alerts = p :: s.alerts.take 49 := rfl

/-- Over any sequence of ADD_ALERT dispatches from a state within the
bound, the resulting alert list is the 50-newest prefix of the payloads
(newest first) followed by the surviving old entries. -/
lemma processAlerts_alerts :
    ∀ (ps : List JsObj) (s : RealtimeState), s.alerts.length ≤ 50 →
      (processAlerts s ps).alerts = (ps.reverse ++ s.alerts).take 50 := by
  intro ps
  induction ps with
  | nil =>
      intro s h
      simpa [processAlerts] using (List.take_of_length_le h).symm
  | cons p ps ih =>
      intro s h
      have h1 : (realtimeReducer s (Action.addAlert p)).alerts.length ≤ 50 := by
        rw [addAlert_alerts]
        simp [List.length_take]
      have step : processAlerts s (p :: ps) =
          processAlerts (realtimeReducer s (Action.addAlert p)) ps := rfl
      rw [step, ih _ h1, addAlert_alerts]
      have e : p :: s.alerts.take 49 = (p :: s.alerts).take 50 := by
        rw [show (50 : Nat) = 49 + 1 from rfl, List.take_succ_cons]
      rw [e, take_append_take _ _ 50 50 (le_refl 50), List.reverse_cons,
        List.append_assoc, List.singleton_append]

/-- Dispatch of a `pair_update` envelope, unfolded. -/
lemma handle_pair_update (now : Int) (s : RealtimeState) (data : JsObj) :
    handleWebSocketMessage now s ⟨"pair_update", data⟩
      = { s with pairs := (mapSet s.pairs (toKey (getField data "pair_id"))
            (mergeObj (mapGetD s.pairs (toKey (getField data "pair_id")) []) data)) } := rfl

/-- Dispatch of an `alert` envelope, unfolded. -/
lemma handle_alert (now : Int) (s : RealtimeState) (data : JsObj) :
    handleWebSocketMessage now s ⟨"alert", data⟩
      = realtimeReducer s (Action.addAlert (alertRecord now data)) := rfl

/-- Processing a stream that consists only of `alert` envelopes equals
folding ADD_ALERT over the constructed records. -/
lemma processStream_alerts :
    ∀ (msgs : List Envelope) (now : Int) (s : RealtimeState),
      (∀ m ∈ msgs, m.type = "alert") →
      processStream now s msgs
        = processAlerts s (msgs.map (fun m => alertRecord now m.data)) := by
  intro msgs
  induction msgs with
  | nil => intro now s _; rfl
  | cons m msgs ih =>
      intro now s hall
      obtain ⟨t, data⟩ := m
      have ht : t = "alert" := hall _ (List.mem_cons_self _ _)
      subst ht
      have step : processStream now s (Envelope.mk "alert" data :: msgs)
          = processStream now (handleWebSocketMessage now s ⟨"alert", data⟩) msgs := rfl
      rw [step, handle_alert, ih _ _ (fun m hm => hall m (List.mem_cons_of_mem _ hm))]
      rfl

/-- C1. Any sequence of processed `alert` envelopes leaves the alert
list equal to the 50 most recent records newest-first: each new record
lands at index 0, the length never exceeds 50, and on overflow the
entries dropped are the oldest (the tail of the list). -/
theorem alert_retention (msgs : List Envelope) (now : Int) (s : RealtimeState)
    (hty : ∀ m ∈ msgs, m.type = "alert") (hlen : s.alerts.length ≤ 50) :
    (processStream now s msgs).alerts
      = ((msgs.map (fun m => alertRecord now m.data)).reverse ++ s.alerts).take 50
    ∧ (processStream now s msgs).alerts.length ≤ 50
    ∧ ∀ data, (handleWebSocketMessage now s ⟨"alert", data⟩).alerts.head?
        = some (alertRecord now data) := by
  have key : (processStream now s msgs).alerts
      = ((msgs.map (fun m => alertRecord now m.data)).reverse ++ s.alerts).take 50 := by
    rw [processStream_alerts msgs now s hty]
    exact processAlerts_alerts _ s hlen
  refine ⟨key, ?_, ?_⟩
  · rw [key]
    simp [List.length_take]
  · intro data
    rw [handle_alert, addAlert_alerts]
    rfl

/-- Witness for C1: three alert envelopes processed from the initial
state, the last one at the head of the stored list. -/
theorem alert_retention_witness :
    (processStream 7 initialState
        [⟨"alert", [("message", JsValue.str "a"), ("timestamp", JsValue.str "t1")]⟩,
         ⟨"alert", [("message", JsValue.str "b"), ("timestamp", JsValue.str "t2")]⟩,
         ⟨"alert", [("message", JsValue.str "c"), ("timestamp", JsValue.str "t3")]⟩]).alerts
      = (([⟨"alert", [("message", JsValue.str "a"), ("timestamp", JsValue.str "t1")]⟩,
           ⟨"alert", [("message", JsValue.str "b"), ("timestamp", JsValue.str "t2")]⟩,
           ⟨"alert", [("message", JsValue.str "c"), ("timestamp", JsValue.str "t3")]⟩].map
            (fun m : Envelope => alertRecord 7 m.data)).reverse
          ++ initialState.alerts).take 50
    ∧ (processStream 7 initialState
        [⟨"alert", [("message", JsValue.str "a"), ("timestamp", JsValue.str "t1")]⟩,
         ⟨"alert", [("message", JsValue.str "b"), ("timestamp", JsValue.str "t2")]⟩,
         ⟨"alert", [("message", JsValue.str "c"), ("timestamp", JsValue.str "t3")]⟩]).alerts.length
        ≤ 50
    ∧ (handleWebSocketMessage 7 initialState
        ⟨"alert", [("message", JsValue.str "d"), ("timestamp", JsValue.str "t4")]⟩).alerts.head?
        = some (alertRecord 7 [("message", JsValue.str "d"), ("timestamp", JsValue.str "t4")]) := by
  obtain ⟨h1, h2, h3⟩ := alert_retention
    [⟨"alert", [("message", JsValue.str "a"), ("timestamp", JsValue.str "t1")]⟩,
     ⟨"alert", [("message", JsValue.str "b"), ("timestamp", JsValue.str "t2")]⟩,
     ⟨"alert", [("message", JsValue.str "c"), ("timestamp", JsValue.str "t3")]⟩]
    7 initialState (by decide) (by decide)
  exact ⟨h1, h2, h3 _⟩

lemma mapGetD_mapSet_self {α : Type} (m : List (String × α)) (k : String) (v d : α) :
    mapGetD (mapSet m k v) k d = v := by
  simp [mapGetD, mapGet_mapSet_self]

/-- C2. For any nonempty sequence of `pair_update` envelopes carrying
the same pair identifier, the final PairSnapshot entry for that
identifier exists and equals the left-to-right shallow merge of all
their payloads in arrival order, seeded with the pre-existing entry
(the empty object when the identifier was absent, so the first update
creates the entry). -/
theorem pair_update_merge :
    ∀ (msgs : List Envelope) (now : Int) (s : RealtimeState) (k : String),
      msgs ≠ [] →
      (∀ m ∈ msgs, m.type = "pair_update" ∧ toKey (getField m.data "pair_id") = k) →
      mapGet (processStream now s msgs).pairs k
        = some (msgs.foldl (fun acc m => mergeObj acc m.data) (mapGetD s.pairs k []))
  | [], _, _, _, hne, _ => absurd rfl hne
  | [m], now, s, k, _, hall => by
      obtain ⟨ht, hk⟩ := hall m (List.mem_cons_self _ _)
      obtain ⟨t, data⟩ := m
      have ht' : t = "pair_update" := ht
      subst ht'
      have hk' : toKey (getField data "pair_id") = k := hk
      have step : processStream now s [Envelope.mk "pair_update" data]
          = handleWebSocketMessage now s ⟨"pair_update", data⟩ := rfl
      rw [step, handle_pair_update, hk']
      show mapGet (mapSet s.pairs k (mergeObj (mapGetD s.pairs k []) data)) k = _
      rw [mapGet_mapSet_self]
      rfl
  | m :: m2 :: rest, now, s, k, _, hall => by
      obtain ⟨ht, hk⟩ := hall m (List.mem_cons_self _ _)
      obtain ⟨t, data⟩ := m
      have ht' : t = "pair_update" := ht
      subst ht'
      have hk' : toKey (getField data "pair_id") = k := hk
      have step : processStream now s (Envelope.mk "pair_update" data :: m2 :: rest)
          = processStream now (handleWebSocketMessage now s ⟨"pair_update", data⟩)
              (m2 :: rest) := rfl
      rw [step, handle_pair_update, hk',
        pair_update_merge (m2 :: rest) now _ k (by simp)
          (fun x hx => hall x (List.mem_cons_of_mem _ hx))]
      show some (List.foldl _ (mapGetD (mapSet s.pairs k
        (mergeObj (mapGetD s.pairs k []) data)) k []) (m2 :: rest)) = _
      rw [mapGetD_mapSet_self]
      rfl

/-- Witness for C2: two updates for pair P1 merge last-field-wins (the
second update overrides the z-score and adds a status). -/
theorem pair_update_merge_witness :
    mapGet (processStream 0 initialState
        [⟨"pair_update", [("pair_id", JsValue.str "P1"), ("z_score", JsValue.num 2)]⟩,
         ⟨"pair_update", [("pair_id", JsValue.str "P1"), ("z_score", JsValue.num 3),
            ("status", JsValue.str "open")]⟩]).pairs "P1"
      = some ([⟨"pair_update", [("pair_id", JsValue.str "P1"), ("z_score", JsValue.num 2)]⟩,
          (⟨"pair_update", [("pair_id", JsValue.str "P1"), ("z_score", JsValue.num 3),
            ("status", JsValue.str "open")]⟩ : Envelope)].foldl
          (fun acc m => mergeObj acc m.data) (mapGetD initialState.pairs "P1" [])) :=
  pair_update_merge
    [⟨"pair_update", [("pair_id", JsValue.str "P1"), ("z_score", JsValue.num 2)]⟩,
     ⟨"pair_update", [("pair_id", JsValue.str "P1"), ("z_score", JsValue.num 3),
        ("status", JsValue.str "open")]⟩]
    0 initialState "P1" (by decide) (by decide)

/-- C3. For every run of N ≤ 5 consecutive abnormal closures starting
from a freshly opened connection, exactly N reconnects are scheduled
with delays 2^0, 2^1, ..., 2^(N-1) seconds (1s, 2s, 4s, 8s, 16s), the
attempt counter after the run is N, a sixth abnormal closure schedules
nothing, and a successful open resets the counter to 0. -/
theorem reconnect_backoff (n : Nat) (h : n ≤ 5) :
    (abnormalRun (wsOnOpen (connect initClient)) n).2
      = (List.range n).map (fun i => 2 ^ i * 1000)
    ∧ (abnormalRun (wsOnOpen (connect initClient)) n).1.reconnectAttempts = n
    ∧ (wsOnClose (abnormalRun (wsOnOpen (connect initClient)) 5).1 1006).pendingReconnect = none
    ∧ (wsOnOpen (abnormalRun (wsOnOpen (connect initClient)) n).1).reconnectAttempts = 0 := by
  interval_cases n <;> decide

/-- Witness for C3: the full five-attempt run with delays
1s, 2s, 4s, 8s, 16s, exhausting the retry budget. -/
theorem reconnect_backoff_witness :
    (abnormalRun (wsOnOpen (connect initClient)) 5).2
      = (List.range 5).map (fun i => 2 ^ i * 1000)
    ∧ (abnormalRun (wsOnOpen (connect initClient)) 5).1.reconnectAttempts = 5
    ∧ (wsOnClose (abnormalRun (wsOnOpen (connect initClient)) 5).1 1006).pendingReconnect = none
    ∧ (wsOnOpen (abnormalRun (wsOnOpen (connect initClient)) 5).1).reconnectAttempts = 0 :=
  reconnect_backoff 5 (by decide)

/-- Counterexample to C4: from a connected client (isConnected after a
successful open), a second `connect()` is not a no-op — it changes the
state and leaves two constructed, never-closed transports. -/
theorem connect_not_idempotent :
    (wsOnOpen (connect initClient)).isConnected = true
    ∧ connect (wsOnOpen (connect initClient)) ≠ wsOnOpen (connect initClient)
    ∧ (connect (wsOnOpen (connect initClient))).liveTransports = 2 := by
  decide

/-- C4 as amended: `connect()` has no already-connected guard; every
invocation opens one more underlying transport and repoints the socket
reference at it without closing or checking the previous one, so
invoking it while connecting or connected yields a second live
connection. -/
theorem connect_unconditionally_opens (c : WsClient) :
    (connect c).liveTransports = c.liveTransports + 1
    ∧ (connect c).socket = some c.nextId
    ∧ (connect c).isConnected = c.isConnected :=
  ⟨rfl, rfl, rfl⟩

/-- C5 (code bug): on a host with no Notification capability the guard
`'Notification' in window && ...` is false, so control falls through to
`return Notification.permission === 'granted'`, which dereferences the
unbound global `Notification`: the call rejects with a ReferenceError
instead of resolving false. When the capability exists the call always
resolves to a boolean. -/
theorem requestNotificationPermission_absent_api :
    requestNotificationPermission none
      = Except.error (JsError.referenceError "Notification")
    ∧ ∀ api : NotificationApi, ∃ b : Bool,
        requestNotificationPermission (some api) = Except.ok b := by
  refine ⟨rfl, ?_⟩
  intro api
  by_cases h : api.permission = Permission.permDefault
  · exact ⟨decide (api.requestResult = Permission.granted),
      by simp [requestNotificationPermission, h]⟩
  · exact ⟨decide (api.permission = Permission.granted),
      by simp [requestNotificationPermission, h]⟩

/-- C6 (code bug): the receipt identifier is `Date.now()`, so two alert
envelopes processed within the same wall-clock millisecond receive the
same identifier even though the stored records are distinct; the
timestamp field, in contrast, is parsed into a structured time value as
claimed. -/
theorem alert_id_collision :
    getField (sameMillisecondRun.alerts.getD 0 []) "id"
        = getField (sameMillisecondRun.alerts.getD 1 []) "id"
    ∧ sameMillisecondRun.alerts.getD 0 [] ≠ sameMillisecondRun.alerts.getD 1 []
    ∧ getField (sameMillisecondRun.alerts.getD 0 []) "timestamp"
        = JsValue.date (JsValue.str "2024-09-26T10:30:15Z") := by
  decide

/-- C7. `sendMessage` transmits only over a socket in the OPEN state:
it returns true exactly when a socket exists and is open (then the
frame is appended to the transmitted list), returns false otherwise
leaving the socket untouched, and is a total function (never throws). -/
theorem sendMessage_spec (socket : Option Socket) (message : JsObj) :
    ((sendMessage socket message).2 = true
      ↔ ∃ s, socket = some s ∧ s.readyState = ReadyState.opened)
    ∧ ((sendMessage socket message).2 = false
        → (sendMessage socket message).1 = socket)
    ∧ ∀ s, socket = some s → s.readyState = ReadyState.opened →
        (sendMessage socket message).1 = some { s with sent := s.sent ++ [message] } := by
  cases socket with
  | none => simp [sendMessage]
  | some s =>
      by_cases h : s.readyState = ReadyState.opened <;>
        simp [sendMessage, h]

/-- Witness for C7: a ping over an open socket is dispatched and
recorded; the same send over no socket reports false and changes
nothing. -/
theorem sendMessage_spec_witness :
    (sendMessage (some { readyState := ReadyState.opened, sent := [] })
        [("type", JsValue.str "ping")]).1
      = some { readyState := ReadyState.opened,
               sent := [[("type", JsValue.str "ping")]] }
    ∧ (sendMessage (none : Option Socket) [("type", JsValue.str "ping")]).1 = none :=
  ⟨(sendMessage_spec _ _).2.2 _ rfl rfl,
   (sendMessage_spec none [("type", JsValue.str "ping")]).2.1 rfl⟩

/-- C8. An envelope whose type is none of the four mutating kinds (this
includes `pong` and every unknown tag) is processed without any error
and without any state change, the rest of the stream is processed as if
it were absent, and a `pong` envelope in particular mutates nothing. -/
theorem unknown_envelope_spec (now : Int) (s : RealtimeState) (m : Envelope)
    (h : m.type ∉ ["pair_update", "alert", "price_update", "system_status"]) :
    handleWebSocketMessage now s m = s
    ∧ (∀ rest, processStream now s (m :: rest) = processStream now s rest)
    ∧ ∀ data, handleWebSocketMessage now s ⟨"pong", data⟩ = s := by
  have h1 : handleWebSocketMessage now s m = s := by
    obtain ⟨t, data⟩ := m
    simp only [List.mem_cons, List.not_mem_nil, or_false] at h
    push_neg at h
    unfold handleWebSocketMessage
    split <;> simp_all
  refine ⟨h1, ?_, fun _ => rfl⟩
  intro rest
  show processStream now (handleWebSocketMessage now s m) rest = processStream now s rest
  rw [h1]

/-- Witness for C8: a `mystery` envelope changes nothing and dropping
it from a stream does not change the result; `pong` changes nothing. -/
theorem unknown_envelope_spec_witness :
    handleWebSocketMessage 0 initialState ⟨"mystery", [("x", JsValue.num 1)]⟩ = initialState
    ∧ processStream 0 initialState
        [⟨"mystery", [("x", JsValue.num 1)]⟩,
         ⟨"price_update", [("symbol", JsValue.str "7203"), ("price", JsValue.num 2850)]⟩]
      = processStream 0 initialState
        [⟨"price_update", [("symbol", JsValue.str "7203"), ("price", JsValue.num 2850)]⟩]
    ∧ handleWebSocketMessage 0 initialState ⟨"pong", []⟩ = initialState := by
  obtain ⟨h1, h2, h3⟩ :=
    unknown_envelope_spec 0 initialState ⟨"mystery", [("x", JsValue.num 1)]⟩ (by decide)
  exact ⟨h1, h2 _, h3 _⟩

/-- C9. The clearAlerts command is a pure local mutation: it empties
the alert list, leaves pairs, prices and systemStatus untouched, and
writes nothing to the socket (the socket, including its transmitted
frames, is returned unchanged). -/
theorem clearAlerts_local (s : RealtimeState) (socket : Option Socket) :
    runCommand Command.clearAlertsCmd s socket = ({ s with alerts := [] }, socket) := rfl

/-- Dispatch of a `price_update` envelope, unfolded. -/
lemma handle_price_update (now : Int) (s : RealtimeState) (data : JsObj) :
    handleWebSocketMessage now s ⟨"price_update", data⟩
      = { s with prices := (mapSet s.prices (toKey (getField data "symbol")) data) } := rfl

/-- C10. Handling is total on payloads with missing keys: a
`pair_update` whose data lacks `pair_id` merges the payload into the
entry under the coerced key "undefined", a `price_update` whose data
lacks `symbol` stores the payload under "undefined", and in both cases
no error is raised and every other state field is unchanged. -/
theorem missing_key_total (now : Int) (s : RealtimeState) (d1 d2 : JsObj)
    (h1 : getField d1 "pair_id" = JsValue.undef)
    (h2 : getField d2 "symbol" = JsValue.undef) :
    handleWebSocketMessage now s ⟨"pair_update", d1⟩
      = { s with pairs := (mapSet s.pairs "undefined"
            (mergeObj (mapGetD s.pairs "undefined" []) d1)) }
    ∧ handleWebSocketMessage now s ⟨"price_update", d2⟩
      = { s with prices := (mapSet s.prices "undefined" d2) } := by
  constructor
  · rw [handle_pair_update, h1]
    rfl
  · rw [handle_price_update, h2]
    rfl

/-- Witness for C10: concrete payloads without `pair_id` / `symbol`
are stored under the key "undefined". -/
theorem missing_key_total_witness :
    handleWebSocketMessage 0 initialState ⟨"pair_update", [("z_score", JsValue.num 3)]⟩
      = { initialState with pairs := (mapSet initialState.pairs "undefined"
            (mergeObj (mapGetD initialState.pairs "undefined" [])
              [("z_score", JsValue.num 3)])) }
    ∧ handleWebSocketMessage 0 initialState
        ⟨"price_update", [("price", JsValue.num 2850)]⟩
      = { initialState with prices := (mapSet initialState.prices "undefined"
            [("price", JsValue.num 2850)]) } :=
  missing_key_total 0 initialState [("z_score", JsValue.num 3)]
    [("price", JsValue.num 2850)] (by decide) (by decide)

end PairTrading
